import Mathlib

/-!
Verification development for the VietVoice TTS dispatch layer
(`backend/shared/redis_client.py`, `backend/shared/auth.py`,
`backend/gateway/main.py`, `backend/worker/main.py`).

The Python code is shallowly embedded: Redis lists become Lean lists
(index 0 is the LPUSH side, so `BRPOP` reads the last element), Redis
string keys become association lists whose most recent write shadows
older ones, JSON values become an inductive type, Python floats become
exact rationals, and fallible operations (Python exceptions) return
`Option` / `Except`.
-/

namespace VVTTS

/-- JSON values as handled by Python's `json` module in this code base
(job dictionaries are flat: strings, numbers, null). -/
inductive JVal where
  | null
  | bool (b : Bool)
  | int (n : Int)
  | num (q : ℚ)
  | str (s : String)
  deriving DecidableEq, Repr

/-- A JSON object / Python dict: association list of fields.  Dicts have
unique keys, so first-match lookup is dict lookup. -/
abbrev JObj := List (String × JVal)

/-- First-match association lookup; models Python dict / Redis key lookup
(for Redis stores, a `SET` is modelled by prepending, which shadows the
older binding exactly as an overwrite does). -/
def alookup {α : Type} : List (String × α) → String → Option α
  | [], _ => none
  | (k', v) :: rest, k => if k' = k then some v else alookup rest k

/-- `d.get(k)` on a Python dict. -/
def jget (o : JObj) (k : String) : Option JVal := alookup o k

/-- Interpolation of a JSON value into an f-string (`f"...{v}..."`). -/
def JVal.pyStr : JVal → String
  | .null => "None"
  | .bool b => if b then "True" else "False"
  | .int n => toString n
  | .num q => toString q
  | .str s => s

/-- Python truthiness of a JSON value (`if v:`). -/
def JVal.truthy : JVal → Bool
  | .null => false
  | .bool b => b
  | .int n => n != 0
  | .num q => q != 0
  | .str s => s != ""

/-- Truthiness of `d.get(k)` (absent key gives `None`, which is falsy). -/
def optTruthy (v : Option JVal) : Bool :=
  match v with
  | none => false
  | some x => x.truthy

/-! ## Broker state (`shared/redis_client.py`, class `RedisClient`)

The embedded state carries exactly the keys this development needs: the
two quality queues `tts:jobs:high` / `tts:jobs:fast`, the status and
result string keys, and the set of registered workers (only its size
matters to the gateway).  TTLs are wall-clock behaviour and are not
modelled; every claim below is about the values written, not expiry. -/

structure RedisState where
  /-- Redis list `tts:jobs:high`; index 0 is the `LPUSH` end. -/
  high : List JObj
  /-- Redis list `tts:jobs:fast`; index 0 is the `LPUSH` end. -/
  fast : List JObj
  /-- `tts:status:{job_id}` keys (latest write first). -/
  statuses : List (String × String)
  /-- `tts:result:{job_id}` keys (latest write first). -/
  results : List (String × JObj)
  /-- Ids of registered (`tts:worker:*`) workers. -/
  workers : List String
  deriving DecidableEq, Repr

/-- `RedisClient._get_queue_key`: quality `"fast"` selects the fast
queue, everything else defaults to the high queue. -/
def getQueueKey (quality : String) : String :=
  if quality = "fast" then "tts:jobs:fast" else "tts:jobs:high"

/-- Contents of the Redis list at `key` (only the two job queues exist). -/
def queueOf (st : RedisState) (key : String) : List JObj :=
  if key = "tts:jobs:fast" then st.fast else st.high

/-- Replace the Redis list at `key`. -/
def setQueueList (st : RedisState) (key : String) (l : List JObj) : RedisState :=
  if key = "tts:jobs:fast" then { st with fast := l } else { st with high := l }

/-- `RedisClient.enqueue_job`: `LPUSH` the job's JSON onto the quality
queue and `SET` `tts:status:{job_id}` to `"pending"`.  `None` models the
`KeyError` raised by `job_data['job_id']` when the field is absent. -/
def enqueue_job (st : RedisState) (job_data : JObj) (quality : String) :
    Option RedisState :=
  match jget job_data "job_id" with
  | none => none
  | some v =>
    let key := getQueueKey quality
    let st1 := setQueueList st key (job_data :: queueOf st key)
    some { st1 with statuses := ("tts:status:" ++ v.pyStr, "pending") :: st1.statuses }

/-- `RedisClient.dequeue_job`: `BRPOP` on the quality queue.  `BRPOP`
atomically removes and returns the element at the tail, i.e. the oldest
element; on an empty queue it returns nil once the timeout elapses
(real-time blocking is not modelled, only the returned value). -/
def dequeue_job (st : RedisState) (quality : String) : Option JObj × RedisState :=
  let key := getQueueKey quality
  match (queueOf st key).getLast? with
  | none => (none, st)
  | some j => (some j, setQueueList st key (queueOf st key).dropLast)

/-- `RedisClient.set_job_status`. -/
def set_job_status (st : RedisState) (job_id status : String) : RedisState :=
  { st with statuses := ("tts:status:" ++ job_id, status) :: st.statuses }

/-- `RedisClient.get_job_status`. -/
def get_job_status (st : RedisState) (job_id : String) : Option String :=
  alookup st.statuses ("tts:status:" ++ job_id)

/-- `RedisClient.store_result`: writes the result JSON and sets the
status key to `result_data.get("status", "completed")`. -/
def store_result (st : RedisState) (job_id : String) (result_data : JObj) :
    RedisState :=
  { st with
    results := ("tts:result:" ++ job_id, result_data) :: st.results
    statuses :=
      ("tts:status:" ++ job_id,
        ((jget result_data "status").getD (.str "completed")).pyStr) :: st.statuses }

/-- `RedisClient.get_result`. -/
def get_result (st : RedisState) (job_id : String) : Option JObj :=
  alookup st.results ("tts:result:" ++ job_id)

/-- `RedisClient.get_queue_size`: length of one quality queue, or the
total over both when no quality is given. -/
def get_queue_size (st : RedisState) (quality : Option String) : Nat :=
  match quality with
  | some q => (queueOf st (getQueueKey q)).length
  | none => st.high.length + st.fast.length

/-- The scan inside `RedisClient.get_queue_position`:
`for i, job_json in enumerate(...): if job.get("job_id") == job_id: return i`,
returning the index of the first match. -/
def scanPos (job_id : String) : List JObj → Option Nat
  | [] => none
  | o :: rest =>
    if jget o "job_id" = some (.str job_id) then some 0
    else (scanPos job_id rest).map (· + 1)

/-- `RedisClient.get_queue_position`: scan the queue in `reversed(LRANGE)`
order — i.e. oldest (tail, `BRPOP` end) first — for the job id; `-1` when
absent. -/
def get_queue_position (st : RedisState) (job_id : String) (quality : String) :
    Int :=
  match scanPos job_id (queueOf st (getQueueKey quality)).reverse with
  | some i => (i : Int)
  | none => -1

/-- `RedisClient.get_active_workers` (only its length is used by the
gateway handlers modelled here). -/
def get_active_workers (st : RedisState) : List String := st.workers

/-! ## Python string operations

The handful of `str` operations `shared/auth.py` uses, embedded through
`String.data` so that list lemmas apply. -/

/-- `s.startswith(pre)`. -/
def pyStartsWith (s pre : String) : Bool := pre.data.isPrefixOf s.data

/-- `s[n:]` for `n ≥ 0`. -/
def pyDrop (s : String) (n : Nat) : String := ⟨s.data.drop n⟩

/-- `s[-n:]` for `n > 0` (the last `n` characters, the whole string when
shorter). -/
def pyTakeRight (s : String) (n : Nat) : String :=
  ⟨s.data.drop (s.data.length - n)⟩

/-- `len(s)`. -/
def pyLen (s : String) : Nat := s.data.length

/-- `s.strip()`: drop leading and trailing whitespace. -/
def pyStrip (s : String) : String :=
  ⟨((s.data.dropWhile Char.isWhitespace).reverse.dropWhile Char.isWhitespace).reverse⟩

/-! ## Credential store (`shared/auth.py`) -/

/-- `APIKeyInfo` dataclass. -/
structure APIKeyInfo where
  key_id : String
  name : String
  created_at : ℚ
  requests_count : Int
  audio_seconds : ℚ
  deriving DecidableEq, Repr

/-- The JSON record stored at `apikey:{key_id}`.  `create_key` always
writes every field; `validate_key` / `increment_usage` nevertheless read
the two counters with `dict.get` defaults, so they are `Option` here. -/
structure StoredKey where
  key_id : String
  full_key_hash : String
  name : String
  created_at : ℚ
  requests_count : Option Int
  audio_seconds : Option ℚ
  deriving DecidableEq, Repr

/-- The Redis keyspace slice holding `apikey:*` records. -/
abbrev KeyStore := List (String × StoredKey)

/-- `get_key_id_from_full_key`: `None` unless the key starts with
`vvtts_` and the remaining token has exactly 32 characters; then the
token's last 8 characters.  (The Python guard `if not full_key or not
full_key.startswith(...)` collapses to the `startswith` test: the empty
string starts with no nonempty prefix.) -/
def get_key_id_from_full_key (full_key : String) : Option String :=
  if pyStartsWith full_key "vvtts_" then
    let token := pyDrop full_key 6
    if pyLen token = 32 then some (pyTakeRight token 8) else none
  else none

/-- `APIKeyManager.create_key`, with the randomly generated 32-hex-char
token and the current time passed in as parameters, and the hash
function (`hashlib.sha256(...).hexdigest()` in the source) abstracted as
`hash`.  Returns `(full_key, info, store after the write)`. -/
def create_key (store : KeyStore) (hash : String → String) (name : String)
    (token : String) (now : ℚ) : String × APIKeyInfo × KeyStore :=
  let full_key := "vvtts_" ++ token
  let key_id := pyTakeRight token 8
  let key_data : StoredKey :=
    { key_id := key_id, full_key_hash := hash full_key, name := name,
      created_at := now, requests_count := some 0, audio_seconds := some 0 }
  (full_key,
   { key_id := key_id, name := name, created_at := now,
     requests_count := 0, audio_seconds := 0 },
   ("apikey:" ++ key_id, key_data) :: store)

/-- `APIKeyManager.validate_key`: derive the key id, look up the record,
compare the stored hash against the hash of the presented key. -/
def validate_key (store : KeyStore) (hash : String → String) (full_key : String) :
    Option APIKeyInfo :=
  match get_key_id_from_full_key full_key with
  | none => none
  | some key_id =>
    match alookup store ("apikey:" ++ key_id) with
    | none => none
    | some key_data =>
      if key_data.full_key_hash ≠ hash full_key then none
      else some
        { key_id := key_data.key_id, name := key_data.name,
          created_at := key_data.created_at,
          requests_count := key_data.requests_count.getD 0,
          audio_seconds := key_data.audio_seconds.getD 0 }

/-- `APIKeyManager.increment_usage`: a silent no-op when the record is
absent; otherwise read-modify-write of the two usage counters. -/
def increment_usage (store : KeyStore) (key_id : String) (audio_seconds : ℚ) :
    KeyStore :=
  match alookup store ("apikey:" ++ key_id) with
  | none => store
  | some key_data =>
    ("apikey:" ++ key_id,
      { key_data with
        requests_count := some (key_data.requests_count.getD 0 + 1),
        audio_seconds := some (key_data.audio_seconds.getD 0 + audio_seconds) })
      :: store

/-! ## Localhost detection and the credential gate
(`shared/auth.py::is_localhost_request`, `gateway/main.py::verify_api_key`) -/

/-- The relevant parts of a FastAPI `Request`: `request.client.host`
(`none` when `request.client` is `None`) and the raw `X-Forwarded-For`
header (`none` when the header is absent; the code reads it with default
`""`). -/
structure HTTPRequest where
  client_host : Option String
  x_forwarded_for : Option String
  deriving DecidableEq, Repr

/-- The literal set `localhost_ips` from the source. -/
def localhost_ips : List String := ["127.0.0.1", "::1", "localhost"]

/-- `forwarded_for.split(",")[0].strip()`: everything before the first
comma (the whole string when there is none), stripped. -/
def xffFirst (s : String) : String :=
  pyStrip ⟨s.data.takeWhile (fun c => c != ',')⟩

/-- `is_localhost_request`. -/
def is_localhost_request (req : HTTPRequest) : Bool :=
  (match req.client_host with
   | some h => localhost_ips.contains h
   | none => false)
  ||
  (let forwarded_for := req.x_forwarded_for.getD ""
   forwarded_for != "" && localhost_ips.contains (xffFirst forwarded_for))

/-- Outcome of the `verify_api_key` dependency: either admission (with
the key's info for credentialed callers, `none` for localhost callers)
or a raised `HTTPException`. -/
inductive AuthOutcome where
  | ok (info : Option APIKeyInfo)
  | httpError (code : Nat) (detail : String)
  deriving DecidableEq, Repr

/-- `key = x_api_key or api_key` followed by `if not key`: Python `or`
takes the header when it is truthy (present and nonempty), else the
query parameter; the result is `none` exactly when `not key` holds
(both absent or empty). -/
def chosenKey (x_api_key api_key : Option String) : Option String :=
  if (match x_api_key with | some s => s != "" | none => false) then x_api_key
  else if (match api_key with | some s => s != "" | none => false) then api_key
  else none

/-- `gateway/main.py::verify_api_key`: localhost bypass, else require a
credential from the `X-API-Key` header or the `api_key` query parameter
and validate it. -/
def verify_api_key (store : KeyStore) (hash : String → String)
    (req : HTTPRequest) (x_api_key api_key : Option String) : AuthOutcome :=
  if is_localhost_request req then .ok none
  else
    match chosenKey x_api_key api_key with
    | none => .httpError 401
        "API key required. Provide via X-API-Key header or api_key query parameter."
    | some key =>
      match validate_key store hash key with
      | none => .httpError 401 "Invalid API key."
      | some key_info => .ok (some key_info)

/-! ## Gateway handlers (`gateway/main.py`) -/

/-- `AVG_GENERATION_TIME = 3.0`. -/
def AVG_GENERATION_TIME : ℚ := 3

/-- `TTSAsyncResponse` (statuses kept as their string values). -/
structure TTSAsyncResponse where
  job_id : String
  status : String
  queue_position : Nat
  estimated_wait : Option ℚ
  deriving DecidableEq, Repr

/-- `POST /synthesize/async` (`synthesize_async`), after the credential
gate: enqueue the job built from the request (`job_id` is the fresh
uuid, `rest` the remaining dumped job fields), snapshot the quality
queue's size as `queue_position`, and estimate the wait from the number
of active workers.  `none` models the `KeyError` path of
`enqueue_job` (unreachable here since `job_id` is always present). -/
def synthesize_async (st : RedisState) (job_id : String) (rest : JObj)
    (quality : String) : Option (TTSAsyncResponse × RedisState) :=
  match enqueue_job st (("job_id", JVal.str job_id) :: rest) quality with
  | none => none
  | some st1 =>
    let queue_position := get_queue_size st1 (some quality)
    let workers := (get_active_workers st1).length
    let estimated_wait : Option ℚ :=
      if workers > 0
      then some (((queue_position : ℚ) / (workers : ℚ)) * AVG_GENERATION_TIME)
      else none
    some ({ job_id := job_id, status := "pending",
            queue_position := queue_position, estimated_wait := estimated_wait },
          st1)

/-- `JobStatusResponse` (statuses kept as strings; the two result-derived
fields keep their JSON values). -/
structure JobStatusResponse where
  job_id : String
  status : String
  queue_position : Option Int
  audio_url : Option String
  generation_time : Option JVal
  error : Option JVal
  deriving DecidableEq, Repr

/-- `GET /job/{job_id}` (`get_job_status` handler), after the credential
gate.  Note the source calls `state.redis.get_queue_position(job_id)`
with no quality argument, so the scan always runs on the default
(`high`) queue.  `JobStatus(status)` raises `ValueError` on a string
outside the enum, modelled as a 500. -/
def gateway_get_job_status (st : RedisState) (job_id : String) :
    Except (Nat × String) JobStatusResponse :=
  match get_job_status st job_id with
  | none => .error (404, "Job not found")
  | some status =>
    if status ∈ ["pending", "processing", "completed", "error"] then
      let result := get_result st job_id
      let base : JobStatusResponse :=
        { job_id := job_id, status := status, queue_position := none,
          audio_url := none, generation_time := none, error := none }
      if status = "pending" then
        .ok { base with queue_position := some (get_queue_position st job_id "high") }
      else
        match result with
        | some r =>
          if status = "completed" && r != [] then
            .ok { base with
              audio_url := some ("/job/" ++ job_id ++ "/audio"),
              generation_time := jget r "generation_time" }
          else if status = "error" && r != [] then
            .ok { base with error := jget r "error" }
          else .ok base
        | none => .ok base
    else .error (500, "ValueError: invalid JobStatus")

/-- `GET /job/{job_id}/audio` (`get_job_audio` handler), after the
credential gate.  `b64decode` abstracts `base64.b64decode`; the returned
value is the decoded audio bytes.  A stored `completed` result without a
string `audio` field would raise (`KeyError` / `TypeError`), modelled as
a 500. -/
def gateway_get_job_audio (st : RedisState) (b64decode : String → List Nat)
    (job_id : String) : Except (Nat × String) (List Nat) :=
  match get_result st job_id with
  | none => .error (404, "Job not found or expired")
  | some result =>
    if jget result "status" ≠ some (.str "completed") then
      .error (400,
        "Job status is " ++ ((jget result "status").getD .null).pyStr ++ ", not completed")
    else
      match jget result "audio" with
      | some (.str a) => .ok (b64decode a)
      | _ => .error (500, "KeyError: audio")

/-! ## Worker (`worker/main.py`, class `TTSWorker`) -/

/-- `TTSWorker.QUALITY_PRESETS` as a partial map. -/
def QUALITY_PRESETS (quality : String) : Option Nat :=
  if quality = "high" then some 32
  else if quality = "fast" then some 16
  else none

/-- The quality/NFE configuration computed by `TTSWorker.__init__`. -/
structure WorkerCfg where
  quality : String
  nfe_steps : Nat
  deriving DecidableEq, Repr

/-- `TTSWorker.__init__`: an unknown quality string is coerced to
`"high"`; `nfe_steps or QUALITY_PRESETS[self.quality]` falls back to the
preset when the override is absent — or `0`, since Python `or` treats
`0` as falsy. -/
def tts_worker_init (quality : String) (nfe_steps : Option Nat) : WorkerCfg :=
  let q := if (QUALITY_PRESETS quality).isSome then quality else "high"
  let preset := (QUALITY_PRESETS q).getD 32
  { quality := q,
    nfe_steps :=
      match nfe_steps with
      | some n => if n != 0 then n else preset
      | none => preset }

/-- `if reference_audio_b64 and reference_text:` — voice-cloning
preprocessing runs only when both fields are truthy. -/
def refActive (job : JObj) : Bool :=
  optTruthy (jget job "reference_audio") && optTruthy (jget job "reference_text")

/-- Outcome of the reference-audio preprocessing (decode + trim +
export), an external collaborator that may raise. -/
inductive PrepOutcome where
  | ok
  | raises (msg code : String)
  deriving DecidableEq, Repr

/-- Outcome of `tts_api.synthesize_to_bytes`: audio (already base64
encoded here), optional duration, elapsed generation time — or an
exception. -/
inductive EngineResult where
  | ok (audio_b64 : String) (audio_duration : Option ℚ) (generation_time : ℚ)
  | raises (msg code : String)
  deriving DecidableEq, Repr

/-- `TTSWorker._process_job`, parametrised by the outcomes of its two
fallible collaborators.  Returns the result dict and, second, the list
of values the job's status key was set to during processing (via
`set_job_status`).  Control flow from the source: the preprocessing
block precedes the `set_job_status(job_id, "processing")` line inside
the same `try`, so a preprocessing exception reaches the `except` arm
having written no status; float rounding (`round(..., 3)`) is not
modelled. -/
def process_job (job : JObj) (prep : PrepOutcome) (engine : EngineResult)
    (now : ℚ) : JObj × List String :=
  match (if refActive job then prep else .ok) with
  | .raises msg code =>
    ([("status", JVal.str "error"), ("error", JVal.str msg),
      ("error_code", JVal.str code), ("completed_at", JVal.num now)], [])
  | .ok =>
    match engine with
    | .ok audio_b64 audio_duration generation_time =>
      ([("status", JVal.str "completed"), ("audio", JVal.str audio_b64),
        ("generation_time", JVal.num generation_time),
        ("audio_duration",
          match audio_duration with
          | some d => if d != 0 then JVal.num d else JVal.null
          | none => JVal.null),
        ("completed_at", JVal.num now)],
       ["processing"])
    | .raises msg code =>
      ([("status", JVal.str "error"), ("error", JVal.str msg),
        ("error_code", JVal.str code), ("completed_at", JVal.num now)],
       ["processing"])

/-- The full sequence of values written to one job's status key along
the worker path: `"pending"` at enqueue (`enqueue_job`), the writes made
inside `_process_job`, then the terminal value `store_result` copies
from `result_data.get("status", "completed")` when `run` stores the
result. -/
def job_status_writes (job : JObj) (prep : PrepOutcome) (engine : EngineResult)
    (now : ℚ) : List String :=
  let r := process_job job prep engine now
  "pending" :: r.2 ++ [((jget r.1 "status").getD (.str "completed")).pyStr]

/-- Rank of a status value in the lifecycle order (terminal states share
the top rank). -/
def statusRank (s : String) : Nat :=
  if s = "pending" then 0 else if s = "processing" then 1 else 2

/-! ## Iterated queue operations and concrete inputs -/

/-- A sequence of `enqueue_job` calls on the same quality class. -/
def enqueueAll (st : RedisState) (js : List JObj) (quality : String) :
    Option RedisState :=
  match js with
  | [] => some st
  | j :: rest =>
    match enqueue_job st j quality with
    | none => none
    | some st1 => enqueueAll st1 rest quality

/-- The broker state after `n` dequeues on one quality class. -/
def dequeueN (st : RedisState) (quality : String) : Nat → RedisState
  | 0 => st
  | n + 1 => dequeueN (dequeue_job st quality).2 quality n

/-- A job carrying reference audio whose preprocessing will fail. -/
def c1_job : JObj :=
  [("job_id", JVal.str "j1"), ("text", JVal.str "xin chao"),
   ("reference_audio", JVal.str "QUJD"), ("reference_text", JVal.str "xin chao")]

/-- Status-key writes for `c1_job` when the reference-audio
preprocessing raises (the engine outcome is irrelevant: it is never
reached). -/
def c1_trace : List String :=
  job_status_writes c1_job (.raises "Decoding failed" "CouldntDecodeError")
    (.ok "V0FW" (some 1) 2) 100

/-- A request from a non-localhost client with no forwarding header. -/
def c2_req : HTTPRequest := { client_host := some "203.0.113.7", x_forwarded_for := none }

/-- A stand-in for the abstract hash function at concrete inputs. -/
def c2_hash : String → String := fun s => s

/-- An empty broker state with no workers. -/
def c3_state : RedisState :=
  { high := [], fast := [], statuses := [], results := [], workers := [] }

def c3_j : JObj :=
  [("job_id", JVal.str "a1"), ("text", JVal.str "one"), ("quality", JVal.str "fast")]

def c3_j2 : JObj :=
  [("job_id", JVal.str "a2"), ("text", JVal.str "two"), ("quality", JVal.str "fast")]

/-- Empty queues, one active worker. -/
def c4_state : RedisState :=
  { high := [], fast := [], statuses := [], results := [], workers := ["w1"] }

def c4_fields : JObj :=
  [("text", JVal.str "xin chao"), ("gender", JVal.str "female"),
   ("area", JVal.str "northern"), ("quality", JVal.str "high")]

/-- Response body of `POST /synthesize/async` for a submission onto the
empty `high` queue of `c4_state`. -/
def c4_response : Option TTSAsyncResponse :=
  (synthesize_async c4_state "j1" c4_fields "high").map (fun p => p.1)

/-- The `queue_position` field of that response. -/
def c4_qp : Option Nat := c4_response.map (fun r => r.queue_position)

/-- The `status` field of that response. -/
def c4_status : Option String := c4_response.map (fun r => r.status)

def c5_jobA : JObj := [("job_id", JVal.str "j1"), ("quality", JVal.str "fast")]

def c5_jobB : JObj := [("job_id", JVal.str "j2"), ("quality", JVal.str "fast")]

/-- Fast queue holding `c5_jobA` (oldest, at the BRPOP end) and
`c5_jobB` (newest): consumption order is `[c5_jobA, c5_jobB]`. -/
def c5_state : RedisState :=
  { high := [], fast := [c5_jobB, c5_jobA], statuses := [], results := [], workers := [] }

/-- A pending fast-quality job sitting in the fast queue. -/
def c6_job : JObj :=
  [("job_id", JVal.str "j6"), ("text", JVal.str "hello"), ("quality", JVal.str "fast")]

def c6_state : RedisState :=
  { high := [], fast := [c6_job], statuses := [("tts:status:j6", "pending")],
    results := [], workers := [] }

/-- A stored completed result with audio. -/
def c8_result : JObj :=
  [("status", JVal.str "completed"), ("audio", JVal.str "QUJD"),
   ("generation_time", JVal.num 2)]

def c8_state : RedisState :=
  { high := [], fast := [], statuses := [("tts:status:j8", "completed")],
    results := [("tts:result:j8", c8_result)], workers := [] }

/-- A concrete stand-in for `base64.b64decode` ("QUJD" decodes to ABC). -/
def c8_decode : String → List Nat := fun _ => [65, 66, 67]

/-- A stored credential record with prior usage. -/
def c9_rec : StoredKey :=
  { key_id := "deadbeef", full_key_hash := "hashvalue", name := "alice",
    created_at := 10, requests_count := some 2, audio_seconds := some (5 / 2) }

def c9_store : KeyStore := [("apikey:deadbeef", c9_rec)]

/-! ## Helper lemmas -/

theorem queueOf_setQueueList_same (st : RedisState) (k : String) (l : List JObj) :
    queueOf (setQueueList st k l) k = l := by
  by_cases h : k = "tts:jobs:fast" <;> simp [queueOf, setQueueList, h]

theorem setQueueList_workers (st : RedisState) (k : String) (l : List JObj) :
    (setQueueList st k l).workers = st.workers := by
  by_cases h : k = "tts:jobs:fast" <;> simp [setQueueList, h]

theorem queueOf_enqueue (st st1 : RedisState) (job : JObj) (q : String)
    (h : enqueue_job st job q = some st1) :
    queueOf st1 (getQueueKey q) = job :: queueOf st (getQueueKey q) ∧
      st1.workers = st.workers := by
  unfold enqueue_job at h
  cases hv : jget job "job_id" with
  | none => rw [hv] at h; cases h
  | some v =>
    rw [hv] at h
    injection h with h
    subst h
    constructor
    · by_cases hk : getQueueKey q = "tts:jobs:fast" <;>
        simp [queueOf, setQueueList, hk]
    · by_cases hk : getQueueKey q = "tts:jobs:fast" <;> simp [setQueueList, hk]

theorem enqueueAll_spec (q : String) : ∀ (js : List JObj) (st : RedisState),
    (∀ x ∈ js, (jget x "job_id").isSome) →
    ∃ st1, enqueueAll st js q = some st1 ∧
      queueOf st1 (getQueueKey q) = js.reverse ++ queueOf st (getQueueKey q) ∧
      st1.workers = st.workers := by
  intro js
  induction js with
  | nil => intro st _; exact ⟨st, rfl, by simp, rfl⟩
  | cons j rest ih =>
    intro st hall
    obtain ⟨v, hv⟩ := Option.isSome_iff_exists.mp (hall j (by simp))
    cases hE : enqueue_job st j q with
    | none => unfold enqueue_job at hE; rw [hv] at hE; cases hE
    | some stm =>
      obtain ⟨hq1, hw1⟩ := queueOf_enqueue st stm j q hE
      obtain ⟨st1, hA, hq2, hw2⟩ := ih stm (fun x hx => hall x (by simp [hx]))
      refine ⟨st1, ?_, ?_, ?_⟩
      · simp [enqueueAll, hE, hA]
      · rw [hq2, hq1]; simp
      · rw [hw2, hw1]

theorem dequeue_job_spec (st : RedisState) (q : String) :
    (dequeue_job st q).1 = (queueOf st (getQueueKey q)).getLast? ∧
    queueOf (dequeue_job st q).2 (getQueueKey q) =
      (queueOf st (getQueueKey q)).dropLast := by
  unfold dequeue_job
  cases hl : (queueOf st (getQueueKey q)).getLast? with
  | none =>
    have he : queueOf st (getQueueKey q) = [] := by
      cases hq : queueOf st (getQueueKey q) with
      | nil => rfl
      | cons a l => rw [hq] at hl; simp at hl
    simp [he]
  | some j => simp [hl, queueOf_setQueueList_same]

theorem reverse_queueOf_dequeue (st : RedisState) (q : String) :
    (queueOf (dequeue_job st q).2 (getQueueKey q)).reverse =
      ((queueOf st (getQueueKey q)).reverse).tail := by
  rw [(dequeue_job_spec st q).2]
  exact (List.tail_reverse _).symm

theorem reverse_queueOf_dequeueN (q : String) : ∀ (n : Nat) (st : RedisState),
    (queueOf (dequeueN st q n) (getQueueKey q)).reverse =
      ((queueOf st (getQueueKey q)).reverse).drop n := by
  intro n
  induction n with
  | zero => intro st; simp [dequeueN]
  | succ n ih =>
    intro st
    rw [show dequeueN st q (n + 1) = dequeueN (dequeue_job st q).2 q n from rfl,
      ih, reverse_queueOf_dequeue, ← List.drop_one, List.drop_drop, Nat.add_comm]

theorem scanPos_none_iff (job_id : String) : ∀ (l : List JObj),
    scanPos job_id l = none ↔
      ∀ o ∈ l, jget o "job_id" ≠ some (.str job_id) := by
  intro l
  induction l with
  | nil => simp [scanPos]
  | cons o rest ih =>
    by_cases h : jget o "job_id" = some (.str job_id) <;>
      simp [scanPos, h, Option.map_eq_none', ih]

theorem scanPos_some (job_id : String) : ∀ (l : List JObj) (i : Nat),
    scanPos job_id l = some i →
      (l.get? i).bind (fun o => jget o "job_id") = some (.str job_id) ∧
      ∀ j, j < i →
        ((l.get? j).bind (fun o => jget o "job_id")) ≠ some (.str job_id) := by
  intro l
  induction l with
  | nil => intro i h; simp [scanPos] at h
  | cons o rest ih =>
    intro i h
    by_cases hc : jget o "job_id" = some (.str job_id)
    · simp [scanPos, hc] at h
      subst h
      exact ⟨by simp [hc], fun j hj => absurd hj (Nat.not_lt_zero j)⟩
    · simp [scanPos, hc, Option.map_eq_some'] at h
      obtain ⟨i', hi', rfl⟩ := h
      obtain ⟨h1, h2⟩ := ih i' hi'
      refine ⟨by simpa using h1, ?_⟩
      intro j hj
      cases j with
      | zero => simpa using hc
      | succ j' => simpa using h2 j' (by omega)

/-! ## Claims -/

/-- C10: every quality other than the exact string `"fast"` is routed to
the high-quality queue by `enqueue_job` and `dequeue_job` (both total,
so no error is raised), and a worker constructed with a quality outside
`{high, fast}` is coerced to `"high"` with its NFE preset 32. -/
theorem claim_C10 (q : String) (hq : q ≠ "fast") :
    getQueueKey q = "tts:jobs:high" ∧
    (∀ st job, enqueue_job st job q = enqueue_job st job "high") ∧
    (∀ st, dequeue_job st q = dequeue_job st "high") ∧
    (∀ q2, q2 ≠ "high" → q2 ≠ "fast" →
      tts_worker_init q2 none = { quality := "high", nfe_steps := 32 }) := by
  have hkey : getQueueKey q = getQueueKey "high" := by simp [getQueueKey, hq]
  refine ⟨by simp [getQueueKey, hq], ?_, ?_, ?_⟩
  · intro st job; unfold enqueue_job; rw [hkey]
  · intro st; unfold dequeue_job; rw [hkey]
  · intro q2 h2 h2'
    simp [tts_worker_init, QUALITY_PRESETS, h2, h2']

/-- C10 witness: the quality string `"ultra"`. -/
theorem claim_C10_witness :
    "ultra" ≠ "fast" ∧ getQueueKey "ultra" = "tts:jobs:high" ∧
    tts_worker_init "ultra" none = { quality := "high", nfe_steps := 32 } :=
  ⟨by decide, (claim_C10 "ultra" (by decide)).1,
    (claim_C10 "ultra" (by decide)).2.2.2 "ultra" (by decide) (by decide)⟩

/-- C9: `increment_usage` on an absent key id is a silent no-op; on a
present record it bumps `requests_count` by exactly one, adds the given
seconds to `audio_seconds`, leaves the identifying fields and the stored
hash unchanged, and touches no other key. -/
theorem claim_C9 (store : KeyStore) (key_id : String) (secs : ℚ) :
    (alookup store ("apikey:" ++ key_id) = none →
      increment_usage store key_id secs = store) ∧
    (∀ d, alookup store ("apikey:" ++ key_id) = some d →
      alookup (increment_usage store key_id secs) ("apikey:" ++ key_id) =
        some { d with
          requests_count := some (d.requests_count.getD 0 + 1),
          audio_seconds := some (d.audio_seconds.getD 0 + secs) } ∧
      ∀ k2, k2 ≠ "apikey:" ++ key_id →
        alookup (increment_usage store key_id secs) k2 = alookup store k2) := by
  constructor
  · intro h; unfold increment_usage; rw [h]
  · intro d hd
    constructor
    · unfold increment_usage; rw [hd]; simp [alookup]
    · intro k2 hk2
      unfold increment_usage; rw [hd]
      simp only [alookup]
      rw [if_neg (fun hcontra => hk2 hcontra.symm)]

/-- C9 witness: incrementing a present record. -/
theorem claim_C9_witness :
    alookup c9_store "apikey:deadbeef" = some c9_rec ∧
    alookup (increment_usage c9_store "deadbeef" 3) "apikey:deadbeef" =
      some { c9_rec with
        requests_count := some (c9_rec.requests_count.getD 0 + 1),
        audio_seconds := some (c9_rec.audio_seconds.getD 0 + 3) } :=
  ⟨rfl, ((claim_C9 c9_store "deadbeef" 3).2 c9_rec rfl).1⟩

/-- C1 counterexample: a dequeued job carrying reference audio whose
preprocessing raises has its status key written `pending` then directly
`error` — the write sequence does not follow
pending, processing, terminal, and skips `processing`. -/
theorem claim_C1_cex :
    c1_trace = ["pending", "error"] ∧
    ¬ (c1_trace = ["pending", "processing", "completed"] ∨
       c1_trace = ["pending", "processing", "error"]) ∧
    ¬ "processing" ∈ c1_trace := by decide

/-- C1 amended: the status writes for a processed job follow
pending, processing, then exactly one of completed/error — except that a
job whose reference-audio preprocessing raises goes directly from
pending to error with no processing write; in every case the sequence is
strictly increasing in lifecycle order (never regresses, and each
terminal value is written exactly once). -/
theorem claim_C1_amended (job : JObj) (prep : PrepOutcome) (engine : EngineResult)
    (now : ℚ) :
    (job_status_writes job prep engine now = ["pending", "processing", "completed"] ∨
     job_status_writes job prep engine now = ["pending", "processing", "error"] ∨
     (job_status_writes job prep engine now = ["pending", "error"] ∧
       refActive job = true ∧ prep ≠ PrepOutcome.ok)) ∧
    List.Chain' (fun a b => statusRank a < statusRank b)
      (job_status_writes job prep engine now) := by
  cases hr : refActive job <;> cases prep <;> cases engine <;>
    simp [job_status_writes, process_job, hr, jget, alookup, JVal.pyStr,
      statusRank]

/-- C2: the credential gate admits a request iff it is a localhost
request (client host in the localhost set, or the first comma-separated
element of `X-Forwarded-For` in that set) or the supplied key (header
preferred over query parameter) validates; a missing credential on a
non-localhost request yields 401 with a message starting
"API key required", and a supplied-but-invalid one yields 401 with a
message starting "Invalid API key". -/
theorem claim_C2 (store : KeyStore) (hash : String → String) (req : HTTPRequest)
    (x_api_key api_key : Option String) :
    ((∃ info, verify_api_key store hash req x_api_key api_key = .ok info) ↔
      (is_localhost_request req = true ∨
        ∃ k, chosenKey x_api_key api_key = some k ∧
          ∃ i, validate_key store hash k = some i)) ∧
    (is_localhost_request req = true ↔
      ((∃ h, req.client_host = some h ∧ h ∈ localhost_ips) ∨
       (∃ f, req.x_forwarded_for = some f ∧ f ≠ "" ∧ xffFirst f ∈ localhost_ips))) ∧
    (is_localhost_request req = false → chosenKey x_api_key api_key = none →
      verify_api_key store hash req x_api_key api_key =
        .httpError 401
          "API key required. Provide via X-API-Key header or api_key query parameter." ∧
      pyStartsWith
        "API key required. Provide via X-API-Key header or api_key query parameter."
        "API key required" = true) ∧
    (∀ k, is_localhost_request req = false →
      chosenKey x_api_key api_key = some k →
      validate_key store hash k = none →
      verify_api_key store hash req x_api_key api_key =
        .httpError 401 "Invalid API key." ∧
      pyStartsWith "Invalid API key." "Invalid API key" = true) := by
  refine ⟨?_, ?_, ?_, ?_⟩
  · by_cases hl : is_localhost_request req
    · simp [verify_api_key, hl]
    · cases hk : chosenKey x_api_key api_key with
      | none => simp [verify_api_key, hl, hk]
      | some k =>
        cases hv : validate_key store hash k with
        | none => simp [verify_api_key, hl, hk, hv]
        | some i => simp [verify_api_key, hl, hk, hv]
  · obtain ⟨ch, xff⟩ := req
    cases ch <;> cases xff <;>
      simp [is_localhost_request, List.contains, List.elem_iff]
  · intro hl hk
    exact ⟨by simp [verify_api_key, hl, hk], by decide⟩
  · intro k hl hk hv
    exact ⟨by simp [verify_api_key, hl, hk, hv], by decide⟩

/-- C2 witness: a non-localhost request with no credential is refused
with the "API key required" message. -/
theorem claim_C2_witness :
    is_localhost_request c2_req = false ∧ chosenKey none none = none ∧
    verify_api_key [] c2_hash c2_req none none =
      .httpError 401
        "API key required. Provide via X-API-Key header or api_key query parameter." :=
  ⟨by decide, by decide,
    ((claim_C2 [] c2_hash c2_req none none).2.2.1 (by decide) (by decide)).1⟩

/-- C3: on its quality class the queue is FIFO — dequeue returns the
oldest element still in the queue (the `BRPOP` end) and removes exactly
it; after a sequence of enqueues onto an empty queue the first dequeue
returns a dict field-wise equal to the first job enqueued and leaves the
rest; a dequeue on an empty queue returns nil (after the blocking
timeout, which is real time and not modelled). -/
theorem claim_C3 (st : RedisState) (quality : String) (j : JObj) (rest : List JObj)
    (hempty : queueOf st (getQueueKey quality) = [])
    (hids : ∀ x ∈ j :: rest, (jget x "job_id").isSome) :
    (dequeue_job st quality).1 = none ∧
    (enqueueAll st (j :: rest) quality).map
        (fun st1 => (dequeue_job st1 quality).1) = some (some j) ∧
    (enqueueAll st (j :: rest) quality).map
        (fun st1 => queueOf (dequeue_job st1 quality).2 (getQueueKey quality)) =
      some rest.reverse ∧
    (∀ st2 : RedisState,
      (dequeue_job st2 quality).1 = (queueOf st2 (getQueueKey quality)).getLast? ∧
      queueOf (dequeue_job st2 quality).2 (getQueueKey quality) =
        (queueOf st2 (getQueueKey quality)).dropLast) := by
  obtain ⟨st1, hA, hq, hw⟩ := enqueueAll_spec quality (j :: rest) st hids
  have hq' : queueOf st1 (getQueueKey quality) = rest.reverse ++ [j] := by
    rw [hq, hempty]; simp
  refine ⟨?_, ?_, ?_, fun st2 => dequeue_job_spec st2 quality⟩
  · rw [(dequeue_job_spec st quality).1, hempty]; rfl
  · rw [hA]
    simp [(dequeue_job_spec st1 quality).1, hq', List.getLast?_concat]
  · rw [hA]
    simp [(dequeue_job_spec st1 quality).2, hq', List.dropLast_concat]

/-- C3 witness: two jobs enqueued onto the empty fast queue; the first
dequeue returns the first one enqueued. -/
theorem claim_C3_witness :
    queueOf c3_state (getQueueKey "fast") = [] ∧
    ([c3_j, c3_j2].all (fun x => (jget x "job_id").isSome)) = true ∧
    (enqueueAll c3_state [c3_j, c3_j2] "fast").map
        (fun st1 => (dequeue_job st1 "fast").1) = some (some c3_j) :=
  ⟨by decide, by decide,
    (claim_C3 c3_state "fast" c3_j [c3_j2] (by decide) (by decide)).2.1⟩

/-- C4 counterexample: submitting to an empty queue with one active
worker yields `queue_position` 1 — the queue size measured after the
enqueue — not the claimed zero-based position 0. -/
theorem claim_C4_cex :
    c4_qp = some 1 ∧ c4_qp ≠ some 0 ∧ c4_status = some "pending" := by
  refine ⟨by decide, by decide, by decide⟩

/-- C4 amended: for an async submission whose quality queue is empty
before the enqueue (and with no consumer in between), the response has
status pending and `queue_position` equal to the queue size immediately
after the enqueue — that is, 1, not 0 — with
`estimated_wait = queue_position / active_worker_count × AVG_GENERATION_TIME`
computed from that value, and null when zero workers are active. -/
theorem claim_C4_amended (st : RedisState) (job_id : String) (rest : JObj)
    (quality : String) (hempty : queueOf st (getQueueKey quality) = []) :
    (synthesize_async st job_id rest quality).map (fun p => p.1) =
      some { job_id := job_id, status := "pending", queue_position := 1,
             estimated_wait :=
               if st.workers.length = 0 then none
               else some (((1 : ℚ) / (st.workers.length : ℚ)) * AVG_GENERATION_TIME) } := by
  unfold synthesize_async
  cases hE : enqueue_job st (("job_id", JVal.str job_id) :: rest) quality with
  | none =>
    exfalso
    unfold enqueue_job at hE
    simp [jget, alookup] at hE
  | some st1 =>
    obtain ⟨hq, hw⟩ := queueOf_enqueue st st1 _ quality hE
    have hsize : get_queue_size st1 (some quality) = 1 := by
      simp [get_queue_size, hq, hempty]
    have hwork : (get_active_workers st1).length = st.workers.length := by
      simp [get_active_workers, hw]
    simp only [Option.map_some, hsize, hwork]
    by_cases hz : st.workers.length = 0
    · simp [hz]
    · simp [hz, Nat.pos_of_ne_zero hz]

/-- C4 witness: the concrete empty-queue, one-worker state. -/
theorem claim_C4_witness :
    queueOf c4_state (getQueueKey "high") = [] ∧
    (synthesize_async c4_state "j1" c4_fields "high").map (fun p => p.1) =
      some { job_id := "j1", status := "pending", queue_position := 1,
             estimated_wait := some AVG_GENERATION_TIME } := by
  refine ⟨rfl, ?_⟩
  have h := claim_C4_amended c4_state "j1" c4_fields "high" rfl
  simpa [c4_state] using h

/-- C5: `get_queue_position` returns the zero-based FIFO position — the
index in consumption (tail-to-head) order of the first job bearing the
id, which equals the number of dequeues that happen before the job with
that id is returned — and `-1` when no job in the queue bears the id. -/
theorem claim_C5 (st : RedisState) (job_id quality : String) :
    (get_queue_position st job_id quality = -1 ↔
      ∀ o ∈ queueOf st (getQueueKey quality), jget o "job_id" ≠ some (.str job_id)) ∧
    (∀ i : Nat, get_queue_position st job_id quality = (i : Int) →
      ((queueOf st (getQueueKey quality)).reverse.get? i).bind
          (fun o => jget o "job_id") = some (.str job_id) ∧
      (∀ j, j < i →
        ((queueOf st (getQueueKey quality)).reverse.get? j).bind
          (fun o => jget o "job_id") ≠ some (.str job_id)) ∧
      (dequeue_job (dequeueN st quality i) quality).1 =
        (queueOf st (getQueueKey quality)).reverse.get? i) := by
  constructor
  · cases hs : scanPos job_id (queueOf st (getQueueKey quality)).reverse with
    | none =>
      have hv : get_queue_position st job_id quality = -1 := by
        simp [get_queue_position, hs]
      rw [hv]
      constructor
      · intro _ o ho
        exact (scanPos_none_iff job_id
          ((queueOf st (getQueueKey quality)).reverse)).mp hs o (by simpa using ho)
      · intro _; rfl
    | some i =>
      have hv : get_queue_position st job_id quality = (i : Int) := by
        simp [get_queue_position, hs]
      rw [hv]
      constructor
      · intro h; exact absurd h (by omega)
      · intro hall
        have hnone := (scanPos_none_iff job_id
          ((queueOf st (getQueueKey quality)).reverse)).mpr
          (fun o ho => hall o (by simpa using ho))
        rw [hnone] at hs; cases hs
  · intro i hi
    cases hs : scanPos job_id (queueOf st (getQueueKey quality)).reverse with
    | none =>
      have hv : get_queue_position st job_id quality = -1 := by
        simp [get_queue_position, hs]
      rw [hv] at hi
      exact absurd hi (by omega)
    | some i' =>
      have hv : get_queue_position st job_id quality = (i' : Int) := by
        simp [get_queue_position, hs]
      rw [hv] at hi
      have hii : i' = i := by exact_mod_cast hi
      subst hii
      obtain ⟨h1, h2⟩ := scanPos_some job_id _ i' hs
      refine ⟨h1, h2, ?_⟩
      rw [(dequeue_job_spec _ quality).1, ← List.head?_reverse,
        reverse_queueOf_dequeueN]
      simp [List.head?_drop, List.get?_eq_getElem?]

/-- C5 witness: the second-oldest job of the fast queue reports
position 1. -/
theorem claim_C5_witness :
    get_queue_position c5_state "j2" "fast" = ((1 : Nat) : Int) ∧
    ((queueOf c5_state (getQueueKey "fast")).reverse.get? 1).bind
      (fun o => jget o "job_id") = some (.str "j2") :=
  ⟨by decide, ((claim_C5 c5_state "j2" "fast").2 1 (by decide)).1⟩

/-- C6: the code diverges from the claim — `GET /job/{id}` for a pending
job of quality `fast` reports `queue_position = -1` because the handler
calls `get_queue_position(job_id)` without the job's quality, scanning
the default `high` queue, even though the job sits at position 0 of the
fast queue. -/
theorem claim_C6_bug :
    gateway_get_job_status c6_state "j6" =
      .ok { job_id := "j6", status := "pending", queue_position := some (-1),
            audio_url := none, generation_time := none, error := none } ∧
    get_queue_position c6_state "j6" "fast" = 0 :=
  ⟨rfl, rfl⟩

/-- C7: validating the full secret returned by `create_key` yields
exactly the created key's info (for any hash function, 32-character
token, store and clock); and validation returns nil whenever the prefix
does not match, the token length is not exactly 32, the derived key id
has no record, or the stored hash differs from the hash of the
presented key. -/
theorem claim_C7 (store : KeyStore) (hash : String → String) (name token : String)
    (now : ℚ) :
    (pyLen token = 32 →
      validate_key (create_key store hash name token now).2.2 hash
          (create_key store hash name token now).1 =
        some (create_key store hash name token now).2.1) ∧
    (∀ s, pyStartsWith s "vvtts_" = false → validate_key store hash s = none) ∧
    (∀ s, pyLen (pyDrop s 6) ≠ 32 → validate_key store hash s = none) ∧
    (∀ s kid, get_key_id_from_full_key s = some kid →
      alookup store ("apikey:" ++ kid) = none → validate_key store hash s = none) ∧
    (∀ s kid d, get_key_id_from_full_key s = some kid →
      alookup store ("apikey:" ++ kid) = some d →
      d.full_key_hash ≠ hash s → validate_key store hash s = none) := by
  refine ⟨?_, ?_, ?_, ?_, ?_⟩
  · intro hlen
    have hpre : pyStartsWith ("vvtts_" ++ token) "vvtts_" = true := by
      unfold pyStartsWith
      rw [String.data_append, List.isPrefixOf_iff_prefix]
      exact List.prefix_append _ _
    have hdrop : pyDrop ("vvtts_" ++ token) 6 = token := by
      unfold pyDrop
      rw [String.data_append,
        show (6 : Nat) = "vvtts_".data.length from rfl, List.drop_left]
    have hid : get_key_id_from_full_key ("vvtts_" ++ token) =
        some (pyTakeRight token 8) := by
      unfold get_key_id_from_full_key
      rw [hpre, if_pos rfl, hdrop, if_pos hlen]
    show validate_key
        (("apikey:" ++ pyTakeRight token 8,
          ({ key_id := pyTakeRight token 8,
             full_key_hash := hash ("vvtts_" ++ token), name := name,
             created_at := now, requests_count := some 0,
             audio_seconds := some 0 } : StoredKey)) :: store) hash
        ("vvtts_" ++ token) =
      some { key_id := pyTakeRight token 8, name := name, created_at := now,
             requests_count := 0, audio_seconds := 0 }
    simp [validate_key, hid, alookup]
  · intro s hs
    simp [validate_key, get_key_id_from_full_key, hs]
  · intro s hlen
    unfold validate_key get_key_id_from_full_key
    by_cases hpre : pyStartsWith s "vvtts_" = true
    · rw [hpre, if_pos rfl, if_neg hlen]
    · rw [if_neg (by simpa using hpre)]
  · intro s kid hkid hnone
    simp [validate_key, hkid, hnone]
  · intro s kid d hkid hsome hne
    simp [validate_key, hkid, hsome, hne]

/-- C7 witness: a concrete 32-character token round-trips through
create/validate. -/
theorem claim_C7_witness :
    pyLen "0123456789abcdef0123456789abcdef" = 32 ∧
    validate_key
        (create_key [] c2_hash "alice" "0123456789abcdef0123456789abcdef" 0).2.2
        c2_hash
        (create_key [] c2_hash "alice" "0123456789abcdef0123456789abcdef" 0).1 =
      some (create_key [] c2_hash "alice" "0123456789abcdef0123456789abcdef" 0).2.1 :=
  ⟨by decide,
    (claim_C7 [] c2_hash "alice" "0123456789abcdef0123456789abcdef" 0).1 (by decide)⟩

/-- C8: `GET /job/{id}/audio` returns the decoded audio bytes iff a
result is stored and its status is `completed` (granted that stored
completed results carry a string `audio` field, as every worker-written
completed result does); it returns 404 when no result is stored and 400
when the stored result's status is not `completed`. -/
theorem claim_C8 (st : RedisState) (b64decode : String → List Nat) (job_id : String) :
    (get_result st job_id = none →
      gateway_get_job_audio st b64decode job_id =
        .error (404, "Job not found or expired")) ∧
    (∀ r, get_result st job_id = some r →
      jget r "status" ≠ some (.str "completed") →
      gateway_get_job_audio st b64decode job_id =
        .error (400,
          "Job status is " ++ ((jget r "status").getD .null).pyStr ++ ", not completed")) ∧
    (∀ r a, get_result st job_id = some r →
      jget r "status" = some (.str "completed") →
      jget r "audio" = some (.str a) →
      gateway_get_job_audio st b64decode job_id = .ok (b64decode a)) ∧
    ((∀ r, get_result st job_id = some r →
        jget r "status" = some (.str "completed") →
        ∃ a, jget r "audio" = some (.str a)) →
      ((∃ bytes, gateway_get_job_audio st b64decode job_id = .ok bytes) ↔
        ∃ r, get_result st job_id = some r ∧
          jget r "status" = some (.str "completed"))) := by
  refine ⟨?_, ?_, ?_, ?_⟩
  · intro h
    simp [gateway_get_job_audio, h]
  · intro r hr hst
    simp [gateway_get_job_audio, hr, hst]
  · intro r a hr hst ha
    simp [gateway_get_job_audio, hr, hst, ha]
  · intro haud
    constructor
    · rintro ⟨bytes, hb⟩
      cases hr : get_result st job_id with
      | none => simp [gateway_get_job_audio, hr] at hb
      | some r =>
        by_cases hst : jget r "status" = some (.str "completed")
        · exact ⟨r, rfl, hst⟩
        · simp [gateway_get_job_audio, hr, hst] at hb
    · rintro ⟨r, hr, hst⟩
      obtain ⟨a, ha⟩ := haud r hr hst
      exact ⟨b64decode a, by simp [gateway_get_job_audio, hr, hst, ha]⟩

/-- C8 witness: a stored completed result with audio is served. -/
theorem claim_C8_witness :
    get_result c8_state "j8" = some c8_result ∧
    jget c8_result "status" = some (.str "completed") ∧
    jget c8_result "audio" = some (.str "QUJD") ∧
    gateway_get_job_audio c8_state c8_decode "j8" = .ok (c8_decode "QUJD") :=
  ⟨rfl, rfl, rfl,
    (claim_C8 c8_state c8_decode "j8").2.2.1 c8_result "QUJD" rfl rfl rfl⟩

end VVTTS
